import Mathlib

/-!
Shallow embedding of the SMS_Bridge verification core (src/core), covering:
  - the Redis-backed state (active_onboarding, verified, rate counters,
    blacklist set, sync_queue list, audit buffer) from src/core/redis_v2.py;
  - the validation pipeline from src/core/services/validation.py;
  - the standalone Redis-only checks from src/core/checks/;
  - the endpoint handlers register_onboarding, receive_sms (its atomic
    verify commit), setup_pin, trigger_recovery and the verify_sms_api_key
    dependency from src/core/sms_server_v2.py;
  - the sync worker tick from src/core/workers.py;
  - the blacklist refresh from src/core/redis_v2.py and
    src/core/background_workers.py.

Modelling conventions:
  - Redis lists are represented in consumer (FIFO) order: the head of the
    Lean list is the element RPOP returns next, and LPUSH appends at the
    end of the Lean list (LPUSH adds at the head of the Redis list, which
    is the far end from RPOP).
  - Wall-clock time is a Nat threaded through the store; a key with TTL
    carries its absolute expiry instant and is treated as absent once
    `now < expiry` fails, which models Redis TTL eviction.
  - The keyed HMAC-SHA256 token generator (generate_onboarding_hash) is
    not computed; the generated token is passed to register_onboarding as
    an explicit argument, exactly as the Python passes hash_val onward to
    set_active_onboarding.  Distinct call instants give distinct HMAC
    messages and, in all but negligible cases, distinct tokens.
  - A Python exception raised by the Redis client inside a check's
    try/except is modelled by an explicit `fault : Option String`
    argument (the exception text), `none` meaning the call succeeded.
  - Settings dictionaries are modelled as records with the .get defaults
    already resolved; an entirely missing config:current is `none`.
-/

namespace SMSBridge

/-- Entry of active_onboarding:hash, as written by set_active_onboarding
in src/core/redis_v2.py (mobile, gen_ts, optional email and device_id),
together with its absolute TTL expiry instant. -/
structure OnbEntry where
  mobile : String
  gen_ts : Nat
  email : Option String
  device_id : Option String
  expires_at : Nat
deriving DecidableEq

/-- Entry of verified:mobile, as written by the receive_sms commit in
src/core/sms_server_v2.py: the consumed hash and the verification time. -/
structure VerifiedEntry where
  mobile : String
  hash : String
  verified_ts : Nat
deriving DecidableEq

/-- Entry of the sync_queue list, as pushed by setup_pin in
src/core/sms_server_v2.py: mobile, pin and hash fields. -/
structure SyncEntry where
  mobile : String
  pin : String
  hash : String
deriving DecidableEq

/-- The per-check enabled flags read from the settings checks dict
(checks_config.get in validation.py and sms_server_v2.py), with the
.get defaults already applied. -/
structure ChecksEnabled where
  headerHash : Bool
  foreignNumber : Bool
  count : Bool
  blacklist : Bool
deriving DecidableEq

/-- The settings payload config:current, restricted to the fields the
modelled code reads, with the dict .get defaults already applied.
sms_receive_api_key is `none` when absent and may be the empty string,
mirroring Python truthiness in verify_sms_api_key. -/
structure Config where
  checks : ChecksEnabled
  allowedPfx : String
  hashLength : Nat
  allowedCountries : List String
  countThreshold : Nat
  ttlHashSeconds : Nat
  smsReceiveApiKey : Option String

/-- A rate/count counter cell: current count and absolute expiry. -/
def RateState : Type := String → Option (Nat × Nat)

/-- The Redis-backed store: active_onboarding and verified key families,
rate counters, the blacklist set, the sync_queue list (consumer order),
the audit buffer (event kinds; detail payloads are elided, no claim
reads them) and the current instant. -/
structure Store where
  onboarding : String → Option OnbEntry
  verified : String → Option VerifiedEntry
  rate : RateState
  blacklist : Finset String
  syncQueue : List SyncEntry
  audit : List String
  now : Nat

/-- Point update of a string-keyed map. -/
def setKey {α : Type} (f : String → Option α) (k : String) (v : Option α) :
    String → Option α :=
  fun x => if x = k then v else f x

/-- Python str.startswith, computed on the character lists. -/
def strStartsWith (s pfx : String) : Bool :=
  pfx.data.isPrefixOf s.data

/-- Python slicing s[n:], computed on the character lists. -/
def strDrop (s : String) (n : Nat) : String :=
  String.mk (s.data.drop n)

/-- lpush_sync_queue (src/core/redis_v2.py): LPUSH adds at the Redis head,
i.e. appends at the end of the consumer-order list. -/
def lpush_sync_queue (q : List SyncEntry) (e : SyncEntry) : List SyncEntry :=
  q ++ [e]

/-- rpop_sync_queue (src/core/redis_v2.py): RPOP takes the Redis tail,
i.e. the head of the consumer-order list. -/
def rpop_sync_queue (q : List SyncEntry) : Option (SyncEntry × List SyncEntry) :=
  match q with
  | [] => none
  | x :: rest => some (x, rest)

/-- The INCR-then-EXPIRE pattern shared by incr_rate (src/core/redis_v2.py)
and count_check (src/core/checks/count_check.py): INCR a key (an absent or
expired key restarts at 1) and set the TTL exactly when the returned count
is 1.  Returns the count and the updated counter map. -/
def incrWithTtl (rate : RateState) (now : Nat) (key : String) (ttl : Nat) :
    Nat × RateState :=
  match rate key with
  | some (c, exp) =>
      if now < exp then (c + 1, setKey rate key (some (c + 1, exp)))
      else (1, setKey rate key (some (1, now + ttl)))
  | none => (1, setKey rate key (some (1, now + ttl)))

/-- incr_rate (src/core/redis_v2.py): increment rate:mobile with the given
TTL, setting the TTL on first increment. -/
def incr_rate (st : Store) (mobile : String) (ttl : Nat) : Nat × Store :=
  let r := incrWithTtl st.rate st.now ("rate:" ++ mobile) ttl
  (r.1, { st with rate := r.2 })

/-- duplicate_check (src/core/checks/duplicate_check.py): disabled gives
status 3; a Redis exception during the membership lookup is caught and
gives status 1 (fail-open); otherwise membership of mobile:device_id in
Queue_validated_mobiles gives 2 (duplicate) or 1. -/
def duplicate_check (enabled : Bool) (validated : Finset String)
    (mobile device_id : String) (fault : Option String) : Nat × String :=
  if ¬ enabled then (3, "duplicate_check_disabled")
  else
    match fault with
    | some e => (1, "duplicate_check_error_" ++ e)
    | none =>
        if (mobile ++ ":" ++ device_id) ∈ validated then
          (2, "duplicate_mobile_device")
        else (1, "not_duplicate")

/-- blacklist_check (src/core/checks/blacklist_check.py): disabled gives
status 3; a Redis exception during the membership lookup is caught and
gives status 2 (fail-closed); otherwise membership in blacklist_mobiles
gives 2 (blacklisted) or 1. -/
def blacklist_check (enabled : Bool) (bl : Finset String)
    (mobile : String) (fault : Option String) : Nat × String :=
  if ¬ enabled then (3, "blacklist_check_disabled")
  else
    match fault with
    | some e => (2, "blacklist_check_error_" ++ e)
    | none =>
        if mobile ∈ bl then (2, "mobile_blacklisted")
        else (1, "not_blacklisted")

/-- count_check (src/core/checks/count_check.py): disabled gives status 3;
a Redis exception during the INCR/EXPIRE is caught and gives status 2
(fail-closed); otherwise INCR sms_count:mobile (TTL set on first
increment) and fail with 2 exactly when the count exceeds the threshold. -/
def count_check (enabled : Bool) (threshold ttl : Nat) (mobile : String)
    (now : Nat) (fault : Option String) (rate : RateState) :
    (Nat × String) × RateState :=
  if ¬ enabled then ((3, "count_check_disabled"), rate)
  else
    match fault with
    | some e => ((2, "count_check_error_" ++ e), rate)
    | none =>
        let r := incrWithTtl rate now ("sms_count:" ++ mobile) ttl
        if r.1 > threshold then
          ((2, "count_exceeded"), r.2)
        else ((1, "count_ok"), r.2)

/-- Runs count_check (fault-free) at each instant of the list in turn,
threading the counter map, and returns the list of status codes. -/
def count_check_run (threshold ttl : Nat) (mobile : String) :
    List Nat → RateState → List Nat × RateState
  | [], rate => ([], rate)
  | t :: ts, rate =>
      let r := count_check true threshold ttl mobile t none rate
      let rest := count_check_run threshold ttl mobile ts r.2
      (r.1.1 :: rest.1, rest.2)

/-- ForeignNumberCheck._extract_country_code (src/core/services/validation.py):
anchored full-match attempts of the three patterns +1 then ten digits,
+ two digits then ten digits, + three digits then nine or ten digits
(returning the parenthesised country-code group), then the slice-based
fallback, else none. -/
def extract_country_code (mobile : String) : Option String :=
  match mobile.data with
  | '+' :: rest =>
      if rest.length = 11 ∧ rest.headD ' ' = '1' ∧ rest.all Char.isDigit then
        some "+1"
      else if rest.length = 12 ∧ rest.all Char.isDigit then
        some (String.mk ('+' :: rest.take 2))
      else if (rest.length = 12 ∨ rest.length = 13) ∧ rest.all Char.isDigit then
        some (String.mk ('+' :: rest.take 3))
      else if rest.length + 1 ≥ 3 then
        if rest.length + 1 ≥ 12 ∧ (rest.take 2).all Char.isDigit then
          some (String.mk ('+' :: rest.take 2))
        else if rest.length + 1 ≥ 13 ∧ (rest.take 3).all Char.isDigit then
          some (String.mk ('+' :: rest.take 3))
        else none
      else none
  | _ => none

/-- extract_hash_from_message (src/core/services/validation.py): strip the
allowed message leader when present, else none. -/
def extract_hash_from_message (message pfx : String) : Option String :=
  if strStartsWith message pfx then some (strDrop message pfx.length)
  else none

/-- HeaderHashCheck.run (src/core/services/validation.py): disabled gives
status 3; the message must have exactly the expected length, start with
the allowed leader, and its hash part must be a live active_onboarding
key, else status 2; otherwise status 1. -/
def HeaderHashCheck_run (enabled : Bool) (message pfx : String)
    (hashLength : Nat) (onboarding : String → Option OnbEntry) :
    Nat × Option String :=
  if ¬ enabled then (3, none)
  else if message.length ≠ pfx.length + hashLength then
    (2, some "invalid_message_length")
  else if ¬ strStartsWith message pfx then (2, some "bad_message_start")
  else
    match onboarding (strDrop message pfx.length) with
    | none => (2, some "hash_not_found_or_expired")
    | some _ => (1, none)

/-- ForeignNumberCheck.run (src/core/services/validation.py): disabled
gives status 3; the extracted country code must exist and belong to
allowed_countries, else status 2; otherwise status 1. -/
def ForeignNumberCheck_run (enabled : Bool) (mobile : String)
    (allowedCountries : List String) : Nat × Option String :=
  if ¬ enabled then (3, none)
  else
    match extract_country_code mobile with
    | none => (2, some "invalid_mobile_number_format")
    | some cc =>
        if cc ∈ allowedCountries then (1, none)
        else (2, some "country_code_not_supported")

/-- CountCheck.run (src/core/services/validation.py): disabled gives
status 3; otherwise incr_rate on rate:mobile with TTL 60 and status 2
exactly when the count exceeds the threshold. -/
def CountCheck_run (enabled : Bool) (mobile : String) (threshold : Nat)
    (now : Nat) (rate : RateState) : (Nat × Option String) × RateState :=
  if ¬ enabled then ((3, none), rate)
  else
    let r := incrWithTtl rate now ("rate:" ++ mobile) 60
    if r.1 > threshold then ((2, some "rate_limit_exceeded"), r.2)
    else ((1, none), r.2)

/-- BlacklistCheck.run (src/core/services/validation.py): disabled gives
status 3; otherwise membership of the mobile in the blacklist set gives
status 2, else status 1. -/
def BlacklistCheck_run (enabled : Bool) (mobile : String)
    (bl : Finset String) : Nat × Option String :=
  if ¬ enabled then (3, none)
  else if mobile ∈ bl then (2, some "mobile_blacklisted")
  else (1, none)

/-- The per-check (status, message) results map returned by
run_validation_pipeline, one field per check name. -/
structure PipelineResults where
  header_hash_check : Nat × Option String
  foreign_number_check : Nat × Option String
  count_check : Nat × Option String
  blacklist_check : Nat × Option String

/-- run_validation_pipeline (src/core/services/validation.py): runs the
four checks in the fixed order header hash, foreign number, count,
blacklist, recording every result, and sets all_passed to false whenever
a check returned status 2.  The count check's INCR side effect is
threaded through the store unconditionally. -/
def run_validation_pipeline (message mobile : String) (cfg : Config)
    (st : Store) : Bool × PipelineResults × Store :=
  let r1 := HeaderHashCheck_run cfg.checks.headerHash message
    cfg.allowedPfx cfg.hashLength st.onboarding
  let r2 := ForeignNumberCheck_run cfg.checks.foreignNumber mobile
    cfg.allowedCountries
  let r3 := CountCheck_run cfg.checks.count mobile cfg.countThreshold
    st.now st.rate
  let r4 := BlacklistCheck_run cfg.checks.blacklist mobile st.blacklist
  let allPassed :=
    ¬ (r1.1 = 2 ∨ r2.1 = 2 ∨ r3.1.1 = 2 ∨ r4.1 = 2)
  (decide allPassed, ⟨r1, r2, r3.1, r4⟩, { st with rate := r3.2 })

/-- Rejections raised by verify_sms_api_key (src/core/sms_server_v2.py):
503 service not configured, 401 missing apiKey, 401 invalid key. -/
inductive AuthError where
  | serviceNotConfigured
  | missingApiKey
  | invalidApiKey
deriving DecidableEq

/-- verify_sms_api_key (src/core/sms_server_v2.py): with no config:current
reject 503; with a truthy sms_receive_api_key in settings require an
apiKey query parameter (Python falsiness makes both an absent and an
empty parameter "missing") equal to it per secrets.compare_digest; with
an absent or empty configured key allow every caller. -/
def verify_sms_api_key (config : Option Config) (apiKey : Option String) :
    Except AuthError Bool :=
  match config with
  | none => .error .serviceNotConfigured
  | some cfg =>
      match cfg.smsReceiveApiKey with
      | none => .ok true
      | some expected =>
          if expected = "" then .ok true
          else
            match apiKey with
            | none => .error .missingApiKey
            | some k =>
                if k = "" then .error .missingApiKey
                else if k = expected then .ok true
                else .error .invalidApiKey

/-- Rejections raised by register_onboarding (src/core/sms_server_v2.py):
503 not configured, 400 bad mobile format, 403 country not supported,
429 rate limited, 403 blacklisted. -/
inductive RegError where
  | serviceNotConfigured
  | invalidMobileFormat
  | countryNotSupported
  | rateLimitExceeded
  | mobileBlocked
deriving DecidableEq

/-- Onboarding registration request body (mobile_number, optional email
and device_id), per src/core/models schemas as read by the handler. -/
structure OnboardRequest where
  mobile_number : String
  email : Option String
  device_id : Option String

/-- set_active_onboarding (src/core/redis_v2.py): SETEX of
active_onboarding:hash with the entry payload and the configured TTL. -/
def set_active_onboarding (hash_val mobile : String) (gen_ts : Nat)
    (email device_id : Option String) (ttl : Nat) (st : Store) : Store :=
  let e : OnbEntry := ⟨mobile, gen_ts, email, device_id, st.now + ttl⟩
  { st with onboarding := setKey st.onboarding hash_val (some e) }

/-- Steps 5 to 9 of register_onboarding (src/core/sms_server_v2.py),
entered after the rate-limit check: blacklist check, then store the
freshly generated token under active_onboarding:hash and append the
HASH_GEN audit event.  No existing token for the mobile is looked up or
removed. -/
def register_store_hash (cfg : Config) (hash_val : String)
    (req : OnboardRequest) (st : Store) : Except RegError (String × Store) :=
  if cfg.checks.blacklist ∧ req.mobile_number ∈ st.blacklist then
    .error .mobileBlocked
  else
    let st2 := set_active_onboarding hash_val req.mobile_number st.now
      req.email req.device_id cfg.ttlHashSeconds st
    .ok (hash_val, { st2 with audit := "HASH_GEN" :: st2.audit })

/-- Steps 2 to 9 of register_onboarding (src/core/sms_server_v2.py) once a
config is present: mobile-format check, foreign-number check (first
allowed country code the mobile starts with), rate-limit check via
incr_rate with TTL 60 (the counter is incremented before the threshold
comparison), then blacklist check and token storage. -/
def register_onboarding_body (cfg : Config) (hash_val : String)
    (req : OnboardRequest) (st : Store) : Except RegError (String × Store) :=
  if ¬ (strStartsWith req.mobile_number "+" ∧ req.mobile_number.length ≥ 10) then
    .error .invalidMobileFormat
  else if cfg.checks.foreignNumber ∧
      (cfg.allowedCountries.find?
        (fun cc => strStartsWith req.mobile_number cc)).isNone then
    .error .countryNotSupported
  else if cfg.checks.count then
    if (incr_rate st req.mobile_number 60).1 > cfg.countThreshold then
      .error .rateLimitExceeded
    else
      register_store_hash cfg hash_val req (incr_rate st req.mobile_number 60).2
  else register_store_hash cfg hash_val req st

/-- register_onboarding (src/core/sms_server_v2.py): 503 when no
config:current is loaded, else the body above; hash_val, produced by
generate_onboarding_hash from the mobile and the current timestamp, is
taken as an argument here. -/
def register_onboarding (config : Option Config) (hash_val : String)
    (req : OnboardRequest) (st : Store) : Except RegError (String × Store) :=
  match config with
  | none => .error .serviceNotConfigured
  | some cfg => register_onboarding_body cfg hash_val req st

/-- A token h currently resolves to mobile M: active_onboarding:h holds a
live (unexpired) entry whose mobile field is M. -/
def resolves_to (st : Store) (h M : String) : Prop :=
  ∃ e, st.onboarding h = some e ∧ e.mobile = M ∧ st.now < e.expires_at

/-- The atomic commit of receive_sms (src/core/sms_server_v2.py) after the
pipeline passed: one transactional Redis pipeline (MULTI/EXEC) deleting
active_onboarding:hash and SETEXing verified:mobile, modelled as a
single state transition. -/
def receive_sms_verify (hash_val mobile : String) (st : Store) : Store :=
  { st with
      onboarding := setKey st.onboarding hash_val none,
      verified := setKey st.verified mobile
        (some ⟨mobile, hash_val, st.now⟩) }

/-- The observable states around the receive_sms commit: because the
delete and the SETEX travel in one MULTI/EXEC transaction, the only
states any observer can see are the one before and the one after. -/
def receive_sms_verify_trace (hash_val mobile : String) (st : Store) :
    List Store :=
  [st, receive_sms_verify hash_val mobile st]

/-- Rejections raised by setup_pin (src/core/sms_server_v2.py): 404 no
verified entry, 400 hash mismatch. -/
inductive PinError where
  | notFound
  | hashMismatch
deriving DecidableEq

/-- PIN setup request body (mobile_number, pin, hash). -/
structure PinSetupRequest where
  mobile_number : String
  pin : String
  hash : String

/-- setup_pin (src/core/sms_server_v2.py): require a verified:mobile entry
whose stored hash equals the supplied hash; push the outbound record
with fields mobile, pin and hash exactly as received onto sync_queue;
delete verified:mobile; append the PIN_COLLECTED audit event. -/
def setup_pin (req : PinSetupRequest) (st : Store) : Except PinError Store :=
  match st.verified req.mobile_number with
  | none => .error .notFound
  | some v =>
      if v.hash ≠ req.hash then .error .hashMismatch
      else
        .ok { st with
          syncQueue := lpush_sync_queue st.syncQueue
            ⟨req.mobile_number, req.pin, req.hash⟩,
          verified := setKey st.verified req.mobile_number none,
          audit := "PIN_COLLECTED" :: st.audit }

/-- The drain loop of one sync_worker tick (src/core/workers.py): RPOP
entries one at a time; on a successful POST continue; on a failed POST
LPUSH the entry back and break.  Returns the final queue together with
the processed and failed counters the worker logs.  The POST outcome is
the abstracted predicate `post`. -/
def sync_worker (post : SyncEntry → Bool) :
    List SyncEntry → List SyncEntry × Nat × Nat
  | [] => ([], 0, 0)
  | x :: rest =>
      if post x then
        let r := sync_worker post rest
        (r.1, r.2.1 + 1, r.2.2)
      else (lpush_sync_queue rest x, 0, 1)

/-- Outcomes of trigger_recovery (src/core/sms_server_v2.py): the distinct
empty-queue success, a delivered batch, or the HTTP 502 raised when the
recovery endpoint call fails. -/
inductive RecoveryResult where
  | nothingToRecover
  | sent (batchSize : Nat)
  | endpointError
deriving DecidableEq

/-- trigger_recovery (src/core/sms_server_v2.py): empty queue returns the
distinct no-users message without any HTTP call; otherwise RPOP every
entry (in consumer order), POST the batch once (payload assembly and
HMAC signing abstracted into the `postBatch` predicate), and on failure
LPUSH the drained entries back iterating over them in reversed order,
raising 502. -/
def trigger_recovery (postBatch : List SyncEntry → Bool)
    (q : List SyncEntry) : RecoveryResult × List SyncEntry :=
  if q.isEmpty then (.nothingToRecover, q)
  else
    let failed_users := q
    if postBatch failed_users then (.sent failed_users.length, [])
    else (.endpointError, failed_users.reverse.foldl lpush_sync_queue [])

/-- load_blacklist_from_db (src/core/redis_v2.py): one MULTI/EXEC deleting
the blacklist set and SADDing every mobile read from the database (the
SADD is skipped for an empty list, after the delete), so the cache set
becomes exactly the database set. -/
def load_blacklist_from_db (_cache : Finset String) (mobiles : List String) :
    Finset String :=
  if mobiles.isEmpty then ∅ else mobiles.toFinset

/-- One iteration of populate_blacklist_from_postgres
(src/core/background_workers.py): when the queried blacklist rows are
non-empty, delete the cache set and SADD all of them; when the query
returns no rows, only log, leaving the cache set untouched. -/
def populate_blacklist_from_postgres (cache : Finset String)
    (db : List String) : Finset String :=
  if db.isEmpty then cache else db.toFinset

/-- The settings payload with every check enabled and all the source's
.get defaults: allowed message leader ONBOARD:, hash length 8, allowed
countries +91 and +44, count threshold 5, hash TTL 900, no API key. -/
def cfg0 : Config :=
  { checks := ⟨true, true, true, true⟩
    allowedPfx := "ONBOARD:"
    hashLength := 8
    allowedCountries := ["+91", "+44"]
    countThreshold := 5
    ttlHashSeconds := 900
    smsReceiveApiKey := none }

/-- A fresh store: no cache keys, empty blacklist, empty queues, time 0. -/
def emptyStore : Store :=
  { onboarding := fun _ => none
    verified := fun _ => none
    rate := fun _ => none
    blacklist := ∅
    syncQueue := []
    audit := []
    now := 0 }

/-- Store in which mobile +15551234567 is verified with hash ABCD2345
(the state setup_pin expects), with an empty sync queue. -/
def pinStore : Store :=
  { emptyStore with
      verified := setKey emptyStore.verified "+15551234567"
        (some ⟨"+15551234567", "ABCD2345", 0⟩) }

/-- Store in which token ABCD2345 is a live onboarding attempt for mobile
+15551234567 and no verified entry exists (the state receive_sms commits
from). -/
def verifyStore : Store :=
  { emptyStore with
      onboarding := setKey emptyStore.onboarding "ABCD2345"
        (some ⟨"+15551234567", 0, none, none, 900⟩) }

/-- Registration request for mobile +911234567890. -/
def regReq : OnboardRequest := ⟨"+911234567890", none, none⟩

/-- The store produced by a first successful register for +911234567890
that generated token TOKEN1AA. -/
def regStore1 : Store :=
  (((register_onboarding (some cfg0) "TOKEN1AA" regReq
    emptyStore).toOption).map Prod.snd).getD emptyStore

/-- The store produced by a second successful register for the same
mobile, while the first attempt is still live, generating TOKEN2BB. -/
def regStore2 : Store :=
  (((register_onboarding (some cfg0) "TOKEN2BB" regReq
    regStore1).toOption).map Prod.snd).getD emptyStore

/-- First (oldest) sync queue entry of the worker-tick scenario. -/
def e6a : SyncEntry := ⟨"+911111111111", "p1", "HHHHAAAA"⟩

/-- Second sync queue entry of the worker-tick scenario. -/
def e6b : SyncEntry := ⟨"+912222222222", "p2", "HHHHBBBB"⟩

/-- Third sync queue entry of the worker-tick scenario. -/
def e6c : SyncEntry := ⟨"+913333333333", "p3", "HHHHCCCC"⟩

/-- Downstream POST outcome for the worker-tick scenario: the entry for
+912222222222 gets a 500, every other POST succeeds. -/
def post6 (e : SyncEntry) : Bool := e.mobile != "+912222222222"

/-- Older entry of the recovery scenario. -/
def u7a : SyncEntry := ⟨"+914444444444", "p4", "HHHHDDDD"⟩

/-- Newer entry of the recovery scenario. -/
def u7b : SyncEntry := ⟨"+915555555555", "p5", "HHHHEEEE"⟩

/-- Settings carrying the non-empty API key sekret123. -/
def cfgKey : Config := { cfg0 with smsReceiveApiKey := some "sekret123" }

/-- C1.  A PIN-collection request that succeeds (verified entry exists for
+15551234567 and its stored hash ABCD2345 equals the supplied one)
pushes the outbound record onto the sync queue with the pin field equal
to the request's plaintext PIN 1234 verbatim — hash_pin is never applied
on this path, although its own docstring says it is used for storing the
PIN in the sync_queue.  The queue afterwards holds exactly this one
entry for the mobile. -/
theorem setup_pin_queues_plaintext_pin :
    (setup_pin ⟨"+15551234567", "1234", "ABCD2345"⟩ pinStore).map
        Store.syncQueue =
      Except.ok [⟨"+15551234567", "1234", "ABCD2345"⟩] := by
  rfl

/-- C3.  When the Redis membership or counter call inside a check raises,
the caught-exception branches give: duplicate_check status 1 (fail-open),
blacklist_check status 2 (fail-closed), count_check status 2
(fail-closed) — for every input, exception text, threshold, TTL, instant
and counter state on which the error occurs. -/
theorem check_internal_error_asymmetry (validated bl : Finset String)
    (mobile device_id e : String) (threshold ttl now : Nat)
    (rate : RateState) :
    (duplicate_check true validated mobile device_id (some e)).1 = 1 ∧
    (blacklist_check true bl mobile (some e)).1 = 2 ∧
    ((count_check true threshold ttl mobile now (some e) rate).1).1 = 2 := by
  refine ⟨?_, ?_, ?_⟩ <;>
    simp [duplicate_check, blacklist_check, count_check]

/-- C6 counterexample.  A tick on the three-entry queue e6a, e6b, e6c in
which the POST of e6a succeeds and the POST of e6b fails ends with the
two-entry queue e6c, e6b: the length shrank from 3 to 2, and the
surviving entries e6b and e6c now stand in the opposite relative order
(e6b was due before e6c, afterwards e6c is due first), refuting the
claimed unchanged length and preserved FIFO order. -/
theorem sync_worker_tick_shrinks_and_reorders :
    post6 e6a = true ∧ post6 e6b = false ∧
    sync_worker post6 [e6a, e6b, e6c] = ([e6c, e6b], 1, 1) ∧
    [e6a, e6b, e6c].length = 3 ∧ [e6c, e6b].length = 2 := by
  decide

/-- C6 as amended.  In a tick whose queue splits as pre ++ x :: rest with
every POST of pre succeeding and the POST of x failing, the worker ends
the tick with queue rest ++ [x] (the failed entry is re-queued at the
producer end, behind all remaining entries), having processed pre.length
entries and attempted nothing after the failure (failed counter 1); the
final length is the starting length minus the successfully delivered
entries, and only the never-popped entries keep their relative order. -/
theorem sync_worker_requeue_and_stop (post : SyncEntry → Bool)
    (pre : List SyncEntry) (x : SyncEntry) (rest : List SyncEntry)
    (hpre : ∀ y ∈ pre, post y = true) (hx : post x = false) :
    sync_worker post (pre ++ x :: rest) = (rest ++ [x], pre.length, 1) := by
  induction pre with
  | nil => simp [sync_worker, hx, lpush_sync_queue]
  | cons a pre ih =>
      have ha : post a = true := hpre a (by simp)
      have ih' := ih (fun y hy => hpre y (by simp [hy]))
      simp [sync_worker, ha, ih']

/-- C6 witness: the amended statement at the concrete failing tick. -/
theorem sync_worker_requeue_and_stop_witness :
    sync_worker post6 ([e6a] ++ e6b :: [e6c]) = ([e6c] ++ [e6b], [e6a].length, 1) :=
  sync_worker_requeue_and_stop post6 [e6a] e6b [e6c] (by decide) (by decide)

/-- C7.  Recovery with queue u7a, u7b (u7a due first) whose single batch
POST fails: the code's reversed-iteration LPUSH re-push leaves the queue
as u7b, u7a — the reverse of the pre-drain content, so the next consumer
pop would deliver u7b instead of u7a.  The 502 error is surfaced and the
length is preserved, but the content is reversed rather than restored,
although the source comment on the re-push loop says the reversal is
there to maintain order. -/
theorem trigger_recovery_requeues_reversed :
    trigger_recovery (fun _ => false) [u7a, u7b] =
      (RecoveryResult.endpointError, [u7b, u7a]) ∧
    decide (u7a = u7b) = false ∧
    [u7a, u7b].length = 2 ∧ [u7b, u7a].length = 2 := by
  decide

/-- C8 counterexample.  With +15551234567 in the cache set and an empty
durable blacklist, one run of populate_blacklist_from_postgres leaves
the cache set unchanged (the clear is inside the non-empty guard), so
the cache does not equal the durable set — refuting the full replace in
the empty case. -/
theorem populate_blacklist_keeps_stale_on_empty_db :
    populate_blacklist_from_postgres {"+15551234567"} [] =
      {"+15551234567"} ∧
    decide (({"+15551234567"} : Finset String) =
      ([] : List String).toFinset) = false := by
  constructor
  · rfl
  · decide

/-- C8 as amended.  load_blacklist_from_db always leaves the cache set
exactly equal to the durable set, including the empty case; one
populate_blacklist_from_postgres run does so only when the durable set
is non-empty and leaves the cache untouched when it is empty; in both
cases running the refresh twice with no durable-store change yields the
same cache membership set both times. -/
theorem blacklist_refresh_replace_and_idempotent (cache : Finset String)
    (db : List String) :
    load_blacklist_from_db cache db = db.toFinset ∧
    (db = [] → populate_blacklist_from_postgres cache db = cache) ∧
    (db ≠ [] → populate_blacklist_from_postgres cache db = db.toFinset) ∧
    populate_blacklist_from_postgres
        (populate_blacklist_from_postgres cache db) db =
      populate_blacklist_from_postgres cache db := by
  cases db with
  | nil => simp [load_blacklist_from_db, populate_blacklist_from_postgres]
  | cons d ds =>
      simp [load_blacklist_from_db, populate_blacklist_from_postgres]

/-- C8 witness: the amended statement's non-empty full-replace clause at a
concrete refresh. -/
theorem blacklist_refresh_replace_and_idempotent_witness :
    populate_blacklist_from_postgres ∅ ["+919999999999"] =
      (["+919999999999"] : List String).toFinset :=
  (blacklist_refresh_replace_and_idempotent ∅ ["+919999999999"]).2.2.1
    (by decide)

/-- C2 counterexample.  On the five-character message HELLO (which fails
the header hash check, the first check, with status 2) and the valid
mobile +911234567890, run_validation_pipeline still executes the later
checks: the count check records status 1 and its INCR side effect is
visible (the rate counter for the mobile stands at 1 with expiry 60
afterwards, starting from a fresh store), refuting the claim that no
check after the first FAIL is executed. -/
theorem pipeline_executes_checks_after_first_fail :
    (run_validation_pipeline "HELLO" "+911234567890" cfg0 emptyStore).1
      = false ∧
    (run_validation_pipeline "HELLO" "+911234567890" cfg0
        emptyStore).2.1.header_hash_check.1 = 2 ∧
    (run_validation_pipeline "HELLO" "+911234567890" cfg0
        emptyStore).2.1.count_check.1 = 1 ∧
    (run_validation_pipeline "HELLO" "+911234567890" cfg0
        emptyStore).2.1.blacklist_check.1 = 1 ∧
    (run_validation_pipeline "HELLO" "+911234567890" cfg0
        emptyStore).2.2.rate "rate:+911234567890" = some (1, 60) := by
  decide

/-- C2 as amended.  For every inbound SMS and settings snapshot,
run_validation_pipeline evaluates all four checks in the fixed canonical
order with no short-circuit: every check records a status in 1, 2, 3
(never an implicit not-reached status), the overall result is pass
exactly when no check returned FAIL, and the count check's counter
update happens irrespective of the earlier checks' outcomes. -/
theorem run_validation_pipeline_runs_every_check (message mobile : String)
    (cfg : Config) (st : Store) :
    ((run_validation_pipeline message mobile cfg st).2.1.header_hash_check.1 = 1 ∨
      (run_validation_pipeline message mobile cfg st).2.1.header_hash_check.1 = 2 ∨
      (run_validation_pipeline message mobile cfg st).2.1.header_hash_check.1 = 3) ∧
    ((run_validation_pipeline message mobile cfg st).2.1.foreign_number_check.1 = 1 ∨
      (run_validation_pipeline message mobile cfg st).2.1.foreign_number_check.1 = 2 ∨
      (run_validation_pipeline message mobile cfg st).2.1.foreign_number_check.1 = 3) ∧
    ((run_validation_pipeline message mobile cfg st).2.1.count_check.1 = 1 ∨
      (run_validation_pipeline message mobile cfg st).2.1.count_check.1 = 2 ∨
      (run_validation_pipeline message mobile cfg st).2.1.count_check.1 = 3) ∧
    ((run_validation_pipeline message mobile cfg st).2.1.blacklist_check.1 = 1 ∨
      (run_validation_pipeline message mobile cfg st).2.1.blacklist_check.1 = 2 ∨
      (run_validation_pipeline message mobile cfg st).2.1.blacklist_check.1 = 3) ∧
    ((run_validation_pipeline message mobile cfg st).1 = true ↔
      ((run_validation_pipeline message mobile cfg st).2.1.header_hash_check.1 ≠ 2 ∧
        (run_validation_pipeline message mobile cfg st).2.1.foreign_number_check.1 ≠ 2 ∧
        (run_validation_pipeline message mobile cfg st).2.1.count_check.1 ≠ 2 ∧
        (run_validation_pipeline message mobile cfg st).2.1.blacklist_check.1 ≠ 2)) ∧
    (run_validation_pipeline message mobile cfg st).2.2.rate =
      (CountCheck_run cfg.checks.count mobile cfg.countThreshold st.now
        st.rate).2 := by
  refine ⟨?_, ?_, ?_, ?_, ?_, ?_⟩
  · unfold run_validation_pipeline HeaderHashCheck_run
    repeat' split
    all_goals simp
  · unfold run_validation_pipeline ForeignNumberCheck_run
    repeat' split
    all_goals simp
  · unfold run_validation_pipeline CountCheck_run
    dsimp only
    split
    · simp
    · split <;> simp
  · unfold run_validation_pipeline BlacklistCheck_run
    repeat' split
    all_goals simp
  · unfold run_validation_pipeline
    simp only [decide_eq_true_eq]
    constructor
    · intro h
      exact ⟨fun h1 => h (Or.inl h1), fun h2 => h (Or.inr (Or.inl h2)),
        fun h3 => h (Or.inr (Or.inr (Or.inl h3))),
        fun h4 => h (Or.inr (Or.inr (Or.inr h4)))⟩
    · rintro ⟨h1, h2, h3, h4⟩ (h | h | h | h)
      · exact h1 h
      · exact h2 h
      · exact h3 h
      · exact h4 h
  · unfold run_validation_pipeline
    rfl

/-- C2 witness: the amended statement's overall-pass characterisation at
the concrete failing SMS, concluding that the pipeline reports failure
because the recorded header hash status is 2. -/
theorem run_validation_pipeline_runs_every_check_witness :
    (run_validation_pipeline "HELLO" "+911234567890" cfg0 emptyStore).1
      = false := by
  have h := (run_validation_pipeline_runs_every_check "HELLO"
    "+911234567890" cfg0 emptyStore).2.2.2.2.1
  have hs : (run_validation_pipeline "HELLO" "+911234567890" cfg0
      emptyStore).2.1.header_hash_check.1 = 2 := by decide
  cases hb : (run_validation_pipeline "HELLO" "+911234567890" cfg0
      emptyStore).1
  · rfl
  · exact absurd hs (h.mp hb).1

/-- C9.  With threshold 5 and a fresh counter for the mobile, seven
count_check calls at instants t1..t7, the second to sixth inside the TTL
window opened by the first and the seventh at or after its expiry,
return statuses 1, 1, 1, 1, 1, 2, 1: the fifth call passes, the sixth
fails, and the call after expiry behaves like the first again (the
counter restarts in a fresh window). -/
theorem count_check_fifth_passes_sixth_fails (m : String)
    (ttl t1 t2 t3 t4 t5 t6 t7 : Nat) (rate : RateState)
    (h0 : rate ("sms_count:" ++ m) = none)
    (h2 : t2 < t1 + ttl) (h3 : t3 < t1 + ttl) (h4 : t4 < t1 + ttl)
    (h5 : t5 < t1 + ttl) (h6 : t6 < t1 + ttl) (h7 : t1 + ttl ≤ t7) :
    (count_check_run 5 ttl m [t1, t2, t3, t4, t5, t6, t7] rate).1 =
      [1, 1, 1, 1, 1, 2, 1] := by
  have h7' : ¬ t7 < t1 + ttl := Nat.not_lt.mpr h7
  simp [count_check_run, count_check, incrWithTtl, setKey, h0, h2, h3,
    h4, h5, h6, h7']

/-- C9 witness: the window statement at concrete instants 0..5 with TTL 60
and a seventh call at instant 60. -/
theorem count_check_fifth_passes_sixth_fails_witness :
    (count_check_run 5 60 "+911234567890" [0, 1, 2, 3, 4, 5, 60]
      (fun _ => none)).1 = [1, 1, 1, 1, 1, 2, 1] :=
  count_check_fifth_passes_sixth_fails "+911234567890" 60 0 1 2 3 4 5 60
    (fun _ => none) rfl (by decide) (by decide) (by decide) (by decide)
    (by decide) (by decide)

/-- C10.  verify_sms_api_key rejects every request with the
service-not-configured error when no config is loaded; accepts every
caller without any key comparison when the configured
sms_receive_api_key is absent or empty; and with a non-empty configured
key accepts a caller exactly when the supplied apiKey query parameter
equals it. -/
theorem verify_sms_api_key_policy (cfg : Config) (apiKey : Option String) :
    verify_sms_api_key none apiKey = .error .serviceNotConfigured ∧
    (cfg.smsReceiveApiKey = none →
      verify_sms_api_key (some cfg) apiKey = .ok true) ∧
    (cfg.smsReceiveApiKey = some "" →
      verify_sms_api_key (some cfg) apiKey = .ok true) ∧
    (∀ expected, cfg.smsReceiveApiKey = some expected → expected ≠ "" →
      (verify_sms_api_key (some cfg) apiKey = .ok true ↔
        apiKey = some expected)) := by
  refine ⟨rfl, ?_, ?_, ?_⟩
  · intro h
    simp [verify_sms_api_key, h]
  · intro h
    simp [verify_sms_api_key, h]
  · intro expected hkey hne
    unfold verify_sms_api_key
    simp only [hkey]
    rw [if_neg hne]
    constructor
    · intro hok
      cases apiKey with
      | none => simp at hok
      | some k =>
          by_cases hk0 : k = ""
          · simp [hk0] at hok
          · by_cases hke : k = expected
            · simp [hke]
            · simp [hk0, hke] at hok
    · intro hak
      subst hak
      simp [hne]

/-- C10 witness: with the non-empty configured key sekret123, a caller
supplying exactly that key is accepted. -/
theorem verify_sms_api_key_policy_witness :
    verify_sms_api_key (some cfgKey) (some "sekret123") = .ok true :=
  ((verify_sms_api_key_policy cfgKey (some "sekret123")).2.2.2 "sekret123"
    rfl (by decide)).mpr rfl

/-- C4.  From a state in which the token is a live onboarding attempt and
no verified entry exists for the mobile, the receive_sms commit — one
transactional Redis MULTI/EXEC pipeline, hence a single state
transition — leaves the old token unresolvable and the verified entry
for the mobile present, and every state observable around the commit
(the state before and the state after, there being no intermediate one)
has exactly one of the two entries: never both present, never both
absent. -/
theorem receive_sms_verify_atomic (hash_val mobile : String) (st : Store)
    (d : OnbEntry) (h1 : st.onboarding hash_val = some d)
    (h2 : st.verified mobile = none) :
    (receive_sms_verify hash_val mobile st).onboarding hash_val = none ∧
    (receive_sms_verify hash_val mobile st).verified mobile =
      some ⟨mobile, hash_val, st.now⟩ ∧
    ∀ s ∈ receive_sms_verify_trace hash_val mobile st,
      ¬ ((s.onboarding hash_val).isSome ∧ (s.verified mobile).isSome) ∧
      ¬ (s.onboarding hash_val = none ∧ s.verified mobile = none) := by
  refine ⟨?_, ?_, ?_⟩
  · simp [receive_sms_verify, setKey]
  · simp [receive_sms_verify, setKey]
  · intro s hs
    simp only [receive_sms_verify_trace, List.mem_cons,
      List.mem_singleton, List.not_mem_nil, or_false] at hs
    rcases hs with rfl | rfl
    · simp [h1, h2]
    · simp [receive_sms_verify, setKey]

/-- C4 witness: the atomic-commit statement at the concrete pre-state in
which ABCD2345 is live for +15551234567 and no verified entry exists. -/
theorem receive_sms_verify_atomic_witness :
    (receive_sms_verify "ABCD2345" "+15551234567" verifyStore).onboarding
        "ABCD2345" = none ∧
    (receive_sms_verify "ABCD2345" "+15551234567" verifyStore).verified
        "+15551234567" =
      some ⟨"+15551234567", "ABCD2345", verifyStore.now⟩ ∧
    ∀ s ∈ receive_sms_verify_trace "ABCD2345" "+15551234567" verifyStore,
      ¬ ((s.onboarding "ABCD2345").isSome ∧
          (s.verified "+15551234567").isSome) ∧
      ¬ (s.onboarding "ABCD2345" = none ∧
          s.verified "+15551234567" = none) :=
  receive_sms_verify_atomic "ABCD2345" "+15551234567" verifyStore
    ⟨"+15551234567", 0, none, none, 900⟩ (by rfl) (by rfl)

/-- A successful register_store_hash stores exactly the new token's entry
on top of the previous onboarding map and leaves the clock unchanged. -/
theorem register_store_hash_ok (cfg : Config) (hash_val : String)
    (req : OnboardRequest) (st : Store) (out : String × Store)
    (h : register_store_hash cfg hash_val req st = .ok out) :
    out.2.onboarding = setKey st.onboarding hash_val
      (some ⟨req.mobile_number, st.now, req.email, req.device_id,
        st.now + cfg.ttlHashSeconds⟩) ∧
    out.2.now = st.now := by
  unfold register_store_hash set_active_onboarding at h
  split at h
  · exact absurd h (by simp)
  · simp only [Except.ok.injEq] at h
    subst h
    exact ⟨rfl, rfl⟩

/-- C5 counterexample.  Starting from a fresh store, a first successful
register for +911234567890 generates TOKEN1AA; a second successful
register for the same mobile while the first attempt is still live
generates TOKEN2BB; afterwards both distinct tokens are live and both
resolve to +911234567890 — refuting the at-most-one-live-token
invariant (register_onboarding never looks up or removes an existing
token for the mobile). -/
theorem register_second_token_also_live :
    (register_onboarding (some cfg0) "TOKEN1AA" regReq emptyStore).isOk
      = true ∧
    (register_onboarding (some cfg0) "TOKEN2BB" regReq regStore1).isOk
      = true ∧
    resolves_to regStore2 "TOKEN1AA" "+911234567890" ∧
    resolves_to regStore2 "TOKEN2BB" "+911234567890" ∧
    decide (("TOKEN1AA" : String) = "TOKEN2BB") = false := by
  refine ⟨by rfl, by rfl, ?_, ?_, by decide⟩
  · exact ⟨⟨"+911234567890", 0, none, none, 900⟩, by rfl, rfl, by decide⟩
  · exact ⟨⟨"+911234567890", 0, none, none, 900⟩, by rfl, rfl, by decide⟩

/-- C5 as amended.  When no live token resolves to the mobile beforehand,
a successful register leaves exactly one live token resolving to it,
namely the freshly generated one; a second register while a prior
attempt is live instead adds a second live token for the same mobile
(see the counterexample), so the at-most-one property holds only for
registers performed when no attempt for that mobile is pending. -/
theorem register_onboarding_unique_token_when_none_live (cfg : Config)
    (hash_val : String) (req : OnboardRequest) (st : Store)
    (out : String × Store)
    (hreg : register_onboarding (some cfg) hash_val req st = .ok out)
    (httl : 0 < cfg.ttlHashSeconds)
    (hnone : ∀ h, ¬ resolves_to st h req.mobile_number) :
    ∀ h, resolves_to out.2 h req.mobile_number ↔ h = hash_val := by
  have hbody : register_onboarding_body cfg hash_val req st = .ok out := hreg
  have main : out.2.onboarding = setKey st.onboarding hash_val
      (some ⟨req.mobile_number, st.now, req.email, req.device_id,
        st.now + cfg.ttlHashSeconds⟩) ∧ out.2.now = st.now := by
    unfold register_onboarding_body at hbody
    repeat' split at hbody
    all_goals
      first
        | exact absurd hbody (by simp)
        | (have hok := register_store_hash_ok cfg hash_val req _ out hbody
           exact hok)
  obtain ⟨hon, hnow⟩ := main
  intro h
  constructor
  · rintro ⟨e, he, hm, hexp⟩
    by_cases hh : h = hash_val
    · exact hh
    · rw [hon] at he
      rw [hnow] at hexp
      unfold setKey at he
      rw [if_neg hh] at he
      exact absurd ⟨e, he, hm, hexp⟩ (hnone h)
  · rintro rfl
    refine ⟨⟨req.mobile_number, st.now, req.email, req.device_id,
      st.now + cfg.ttlHashSeconds⟩, ?_, rfl, ?_⟩
    · rw [hon]
      unfold setKey
      rw [if_pos rfl]
    · rw [hnow]
      exact Nat.lt_add_of_pos_right httl

/-- C5 witness: the amended statement at a first register from the fresh
store, whose generated token TOKEN1AA is then the unique live token for
the mobile. -/
theorem register_onboarding_unique_token_witness :
    resolves_to regStore1 "TOKEN1AA" "+911234567890" :=
  (register_onboarding_unique_token_when_none_live cfg0 "TOKEN1AA" regReq
    emptyStore ("TOKEN1AA", regStore1) (by rfl) (by decide)
    (by
      intro h hres
      obtain ⟨e, he, -, -⟩ := hres
      simp [emptyStore] at he) "TOKEN1AA").mpr rfl

end SMSBridge
